import Mathlib

/-!
Shallow embedding of the strategy core of the repository
(`src/src/hypothesis/searchstrategy/misc.py`) and of the configuration object
(`src/hypothesis/settings.py`), together with theorems settling the
specification claims about them.

Python runtime values that can flow through the strategy interface
(templates, basic data, sampled elements) are modelled by the inductive
`PyVal`. Python exceptions are modelled as an `Except PyErr` result:
`BadData` (recoverable decode failure) and TypeError-class failures each get
a constructor. The helpers `check_type`, `check_data_type` (from
`hypothesis.searchstrategy.strategy`), `dist.biased_coin` (from
`hypothesis.internal.distributions`) and the base class's `reify` live in
modules that are not part of the two source files here; those are modelled
from the spec and marked as such in their doc comments.
-/

mutual

/-- A Python runtime value as it can appear in this core: the `None` marker,
booleans, integers, strings, and (possibly nested) lists. Basic data is the
sub-language {null, integer, sequence}; templates and sampled elements can
be any of these. Lists are a mutual inductive (`PyValList`) rather than
`List PyVal` so that equality and the Python `==` relation below are
structurally recursive. -/
inductive PyVal where
  | none : PyVal
  | bool (b : Bool) : PyVal
  | int (n : ℤ) : PyVal
  | str (s : String) : PyVal
  | list (xs : PyValList) : PyVal
deriving DecidableEq

/-- The payload of a Python list value. -/
inductive PyValList where
  | nil : PyValList
  | cons (x : PyVal) (xs : PyValList) : PyValList
deriving DecidableEq

end

/-- Python exceptions raised by this core: `BadData` (recoverable, from
`from_basic`) and TypeError-class errors (defensive, from `to_basic`). -/
inductive PyErr where
  | badData (msg : String) : PyErr
  | typeError (msg : String) : PyErr
deriving DecidableEq

/-- `isinstance(v, bool)` for our value universe. -/
def isInstBool : PyVal → Bool
  | .bool _ => true
  | _ => false

/-- `isinstance(v, integer_types)` for our value universe. In Python, `bool`
is a subclass of `int`, so boolean values pass the integer check. -/
def isInstInt : PyVal → Bool
  | .bool _ => true
  | .int _ => true
  | _ => false

/-- Python `int(v)` on the integer-shaped values this core applies it to
(`bool` or `int`; every call site runs it behind an `isInstBool` or
`isInstInt` check, so the remaining branches are unreachable there). -/
def pyInt : PyVal → ℤ
  | .bool b => if b then 1 else 0
  | .int n => n
  | _ => 0

/-- Python truthiness, `bool(v)`: `None` is false, numbers are true iff
nonzero, strings and lists are true iff non-empty. -/
def pyTruthy : PyVal → Bool
  | .none => false
  | .bool b => b
  | .int n => n != 0
  | .str s => !s.isEmpty
  | .list .nil => false
  | .list (.cons _ _) => true

mutual

/-- Python `==` on our value universe: `None` equals only itself, numeric
values compare by numeric value (so `True == 1` and `False == 0`, because
`bool` is an `int` subclass), strings compare by content, lists compare
elementwise. Values of unrelated kinds are unequal. -/
def pyEq : PyVal → PyVal → Bool
  | .none, .none => true
  | .bool a, .bool b => a == b
  | .bool a, .int n => (if a then (1 : ℤ) else 0) == n
  | .int n, .bool a => n == (if a then (1 : ℤ) else 0)
  | .int m, .int n => m == n
  | .str s, .str t => s == t
  | .list xs, .list ys => pyEqList xs ys
  | _, _ => false

/-- Python `==` on list payloads: elementwise `pyEq`, equal lengths. -/
def pyEqList : PyValList → PyValList → Bool
  | .nil, .nil => true
  | .cons x xs, .cons y ys => pyEq x y && pyEqList xs ys
  | _, _ => false

end

/-- Python hashability of a value: lists are unhashable, every other value
kind in our universe is hashable. `set(xs)` raises `TypeError` exactly when
some element is unhashable. -/
def pyHashable : PyVal → Bool
  | .list _ => false
  | _ => true

/-- Python `x in xs` under `==`. -/
def pyMem (x : PyVal) (xs : List PyVal) : Bool :=
  xs.any (pyEq x)

/-- The distinct values of `xs` under Python `==`, first representative of
each class kept, in order of first occurrence. `len(set(xs))`, the number of
distinct elements, is the length of this list (for hashable elements,
Python's `set` collapses exactly the `==`-equal values). -/
def pyDistinct (xs : List PyVal) : List PyVal :=
  xs.foldl (fun acc x => if pyMem x acc then acc else acc ++ [x]) []

/-- True exactly on a `BadData` outcome. -/
def isBadData : Except PyErr PyVal → Bool
  | .error (.badData _) => true
  | _ => false

/-- True exactly on a TypeError-class outcome. -/
def isTypeError : Except PyErr PyVal → Bool
  | .error (.typeError _) => true
  | _ => false

/-- Modelled from the spec: `check_type` from
`hypothesis.searchstrategy.strategy` (that module is not under `src/`).
Per the spec, `to_basic` "fails with `TypeError`-class error if given a
value of the wrong runtime shape": the check raises a TypeError-class error
when the value is not an instance of the given type and otherwise does
nothing. -/
def check_type (isinst : PyVal → Bool) (name : String) (value : PyVal) :
    Except PyErr Unit :=
  if isinst value then .ok () else .error (.typeError ("Expected " ++ name))

/-- Modelled from the spec: `check_data_type` from
`hypothesis.searchstrategy.strategy` (that module is not under `src/`).
Per the spec, `from_basic` raises `BadData` on a "wrong primitive kind": the
check raises `BadData` when the value is not an instance of the given type
and otherwise does nothing. -/
def check_data_type (isinst : PyVal → Bool) (name : String) (value : PyVal) :
    Except PyErr Unit :=
  if isinst value then .ok () else .error (.badData ("Expected " ++ name))

/-- The sequential randomness source: a pre-drawn stream of raw natural
draws and a position in it. Each primitive draw consumes one stream value,
which makes every draw deterministic in the source state, as the spec
requires. -/
structure PRandom where
  stream : ℕ → ℕ
  pos : ℕ

/-- Advance the source past one consumed draw. -/
def PRandom.next (r : PRandom) : PRandom :=
  ⟨r.stream, r.pos + 1⟩

/-- Python `random.randint(lo, hi)`: a uniform integer in the inclusive
range `[lo, hi]`, modelled by reducing one raw stream draw modulo the range
size. -/
def PRandom.randint (r : PRandom) (lo hi : ℤ) : ℤ × PRandom :=
  (lo + (r.stream r.pos : ℤ) % (hi - lo + 1), r.next)

/-- Python `random.getrandbits(k)`: a uniform integer in `[0, 2^k)`. -/
def PRandom.getrandbits (r : PRandom) (k : ℕ) : ℤ × PRandom :=
  ((r.stream r.pos % 2 ^ k : ℕ), r.next)

/-- Modelled from the spec: `dist.biased_coin` from
`hypothesis.internal.distributions` (not under `src/`). The spec says the
Boolean strategy "draws one biased coin flip using `p`": we model the flip
as comparing one uniform draw from `[0,1)` (a raw draw reduced to 53 bits
and scaled) against the bias `p`. -/
def biased_coin (r : PRandom) (p : ℚ) : Bool × PRandom :=
  (decide (((r.stream r.pos % 2 ^ 53 : ℕ) : ℚ) / 2 ^ 53 < p), r.next)

namespace BoolStrategy

/-- `BoolStrategy.size_lower_bound` (class attribute, fixed at 2). -/
def size_lower_bound : ℕ := 2

/-- `BoolStrategy.size_upper_bound` (class attribute, fixed at 2). -/
def size_upper_bound : ℕ := 2

/-- `BoolStrategy.produce_template`: one biased coin flip with bias `p`
(the parameter, a uniform float from `[0,1]`). -/
def produce_template (r : PRandom) (p : ℚ) : PyVal × PRandom :=
  let (b, r2) := biased_coin r p
  (.bool b, r2)

/-- `BoolStrategy.to_basic`: `check_type(bool, value); return int(value)`. -/
def to_basic (value : PyVal) : Except PyErr PyVal := do
  check_type isInstBool "bool" value
  return .int (pyInt value)

/-- `BoolStrategy.from_basic`:
`check_data_type(int, value); return bool(value)`. -/
def from_basic (value : PyVal) : Except PyErr PyVal := do
  check_data_type isInstInt "int" value
  return .bool (pyTruthy value)

end BoolStrategy

namespace JustStrategy

/-- `JustStrategy.size_lower_bound` (class attribute, fixed at 1). -/
def size_lower_bound : ℕ := 1

/-- `JustStrategy.size_upper_bound` (class attribute, fixed at 1). -/
def size_upper_bound : ℕ := 1

/-- `JustStrategy.produce_template`: returns `self.descriptor.value` (the
fixed value the strategy was constructed from), ignoring both the
randomness source and the parameter (a `CompositeParameter()` with no
components, modelled as `Unit`). -/
def produce_template (value : PyVal) (r : PRandom) (_pv : Unit) :
    PyVal × PRandom :=
  (value, r)

/-- `JustStrategy.to_basic`: always returns `None`, whatever the
template. -/
def to_basic (_value _template : PyVal) : Except PyErr PyVal :=
  .ok .none

/-- `JustStrategy.from_basic`: raises `BadData` unless the data is `None`
(the Python message uses `nice_string(data)`, a formatting helper from
`hypothesis.internal.fixers` that is not under `src/`; we keep a fixed
message since no claim depends on its text), and returns the fixed value. -/
def from_basic (value data : PyVal) : Except PyErr PyVal :=
  match data with
  | .none => .ok value
  | _ => .error (.badData "Expected None but got something else")

end JustStrategy

/-- The reified value of the random-seed strategy: `RandomWithSeed(seed)`
from `hypothesis.types`, an object wrapping the integer seed template. -/
structure RandomWithSeed where
  seed : PyVal
deriving DecidableEq

namespace RandomStrategy

/-- `RandomStrategy.from_basic`:
`check_data_type(integer_types, data); return data`. -/
def from_basic (data : PyVal) : Except PyErr PyVal := do
  check_data_type isInstInt "int" data
  return data

/-- `RandomStrategy.to_basic`: `return template`, no checking. -/
def to_basic (template : PyVal) : Except PyErr PyVal :=
  .ok template

/-- `RandomStrategy.produce_template`: `random.getrandbits(128)`; the
parameter is an empty `CompositeParameter()`, modelled as `Unit`. -/
def produce_template (r : PRandom) (_pv : Unit) : PyVal × PRandom :=
  let (s, r2) := r.getrandbits 128
  (.int s, r2)

/-- `RandomStrategy.reify`: `RandomWithSeed(template)`. -/
def reify (template : PyVal) : RandomWithSeed :=
  ⟨template⟩

end RandomStrategy

namespace SampledFromStrategy

/-- `SampledFromStrategy.to_basic`: `return template`, no checking. -/
def to_basic (template : PyVal) : Except PyErr PyVal :=
  .ok template

/-- `SampledFromStrategy.from_basic`: `check_data_type(integer_types, data)`
then range-check the index against `len(self.elements)` and return the data
unchanged. -/
def from_basic (elements : List PyVal) (data : PyVal) :
    Except PyErr PyVal := do
  check_data_type isInstInt "int" data
  if pyInt data < 0 then
    .error (.badData ("Index out of range: " ++ toString (pyInt data) ++
      " < 0"))
  else if pyInt data ≥ (elements.length : ℤ) then
    .error (.badData ("Index out of range: " ++ toString (pyInt data) ++
      " >= " ++ toString elements.length))
  else
    return data

/-- `SampledFromStrategy.produce_template`:
`random.randint(0, len(self.elements) - 1)`; the parameter `pv` (a
`NonEmptySubset` draw, modelled as the list of chosen indices) is not
consulted. -/
def produce_template (elements : List PyVal) (r : PRandom) (_pv : List ℕ) :
    PyVal × PRandom :=
  let (i, r2) := r.randint 0 ((elements.length : ℤ) - 1)
  (.int i, r2)

/-- `SampledFromStrategy.reify`: `self.elements[template]` (Python indexing
raises `IndexError` out of range, hence the `Option`). -/
def reify (elements : List PyVal) (template : PyVal) : Option PyVal :=
  elements.get? (pyInt template).toNat

/-- `SampledFromStrategy.__init__`'s size computation:
`try: s = set(self.elements); bounds = len(s)` and on `TypeError` (some
element unhashable) `bounds = len(self.elements)`. -/
def size_lower_bound (elements : List PyVal) : ℕ :=
  if elements.all pyHashable then (pyDistinct elements).length
  else elements.length

/-- `SampledFromStrategy.__init__` assigns `size_upper_bound` from the same
computation as `size_lower_bound`. -/
def size_upper_bound (elements : List PyVal) : ℕ :=
  if elements.all pyHashable then (pyDistinct elements).length
  else elements.length

end SampledFromStrategy

/-- The strategy interface, as the registry's constructor functions handle
whole strategy objects: the method bundle of one strategy instance, over its
parameter type `P`. `reify` here is the identity on templates — modelled
from the spec for strategies that do not override it (the Boolean, constant
and enumerated-choice strategies' "Template *is* the value" / index reading
of the spec); the random-seed strategy, which does override `reify`, is kept
as standalone definitions above. -/
structure SearchStrategy (P : Type) where
  produce_template : PRandom → P → PyVal × PRandom
  reify : PyVal → PyVal
  to_basic : PyVal → Except PyErr PyVal
  from_basic : PyVal → Except PyErr PyVal
  size_lower_bound : ℕ
  size_upper_bound : ℕ

/-- The constructed `JustStrategy(value)` object: its methods are the
`JustStrategy` definitions above, its `reify` the (unoverridden, identity)
base method, and its size bounds 1. -/
def mkJustStrategy (value : PyVal) : SearchStrategy Unit where
  produce_template := JustStrategy.produce_template value
  reify := fun t => t
  to_basic := JustStrategy.to_basic value
  from_basic := JustStrategy.from_basic value
  size_lower_bound := JustStrategy.size_lower_bound
  size_upper_bound := JustStrategy.size_upper_bound

/-- `define_strategy_strategy(strategies, descriptor)` — the registry rule
for descriptors that are already `SearchStrategy` instances: it returns the
descriptor itself. The `strategies` table argument is unused by every
constructor here and is modelled as `Unit`. -/
def define_strategy_strategy {P : Type} (_strategies : Unit)
    (descriptor : SearchStrategy P) : SearchStrategy P :=
  descriptor

/-- `define_none_strategy(strategies, descriptor)` — the registry rule for
the `None` value and the `NoneType` descriptor: `JustStrategy(None)`. -/
def define_none_strategy (_strategies : Unit) (_descriptor : PyVal) :
    SearchStrategy Unit :=
  mkJustStrategy PyVal.none

/-- `define_just_strategy(strategies, descriptor)` — the registry rule for
`Just(value)` descriptors: `JustStrategy(descriptor.value)`. -/
def define_just_strategy (_strategies : Unit) (value : PyVal) :
    SearchStrategy Unit :=
  mkJustStrategy value

/-- The configuration object of `src/hypothesis/settings.py`. -/
structure Settings where
  min_satisfying_examples : ℤ
  max_examples : ℤ
  timeout : ℤ
deriving DecidableEq

/-- Python `x or d` for an optional integer argument `x`: the default `d`
is taken when `x` is absent (`None`) or falsy (`0`); any other value is
taken as given. -/
def orDefault (x : Option ℤ) (d : ℤ) : ℤ :=
  match x with
  | Option.none => d
  | some v => if v = 0 then d else v

/-- `Settings.__init__`: each field falls back to the corresponding field of
the module-level `default` object by a truthiness test (`arg or
default.field`). The `default` object is passed explicitly here (`dflt`)
since the embedding has no module-level mutable global. -/
def Settings.init (dflt : Settings)
    (min_satisfying_examples max_examples timeout : Option ℤ) : Settings where
  min_satisfying_examples :=
    orDefault min_satisfying_examples dflt.min_satisfying_examples
  max_examples := orDefault max_examples dflt.max_examples
  timeout := orDefault timeout dflt.timeout

/-- The module-level `default = Settings(min_satisfying_examples=5,
max_examples=200, timeout=60)`. All three arguments are truthy, so
`__init__` never reads the (not yet bound) `default` during this call; we
therefore pass an arbitrary fallback object, whose fields are provably
ignored (`Settings.default_is_fixed_point` below). -/
def Settings.default : Settings :=
  Settings.init ⟨0, 0, 0⟩ (some 5) (some 200) (some 60)

/-- Unfolding of `SampledFromStrategy.from_basic` on an integer input: the
integer-shape check passes and only the two range checks remain. -/
theorem SampledFromStrategy.from_basic_int (elements : List PyVal) (i : ℤ) :
    SampledFromStrategy.from_basic elements (.int i) =
      if i < 0 then
        .error (.badData ("Index out of range: " ++ toString i ++ " < 0"))
      else if i ≥ (elements.length : ℤ) then
        .error (.badData ("Index out of range: " ++ toString i ++ " >= " ++
          toString elements.length))
      else .ok (.int i) := rfl

/-- An in-range integer index decodes to itself. -/
theorem SampledFromStrategy.from_basic_ok (elements : List PyVal) (i : ℤ)
    (h0 : 0 ≤ i) (hlt : i < (elements.length : ℤ)) :
    SampledFromStrategy.from_basic elements (.int i) = .ok (.int i) := by
  rw [SampledFromStrategy.from_basic_int, if_neg (by omega), if_neg (by omega)]

/-- The template drawn by `SampledFromStrategy.produce_template` is the raw
stream draw reduced modulo the element count. -/
theorem SampledFromStrategy.produce_template_eq (elements : List PyVal)
    (r : PRandom) (pv : List ℕ) :
    SampledFromStrategy.produce_template elements r pv =
      (.int ((r.stream r.pos : ℤ) % (elements.length : ℤ)), r.next) := by
  show (PyVal.int (0 + (r.stream r.pos : ℤ) %
      ((elements.length : ℤ) - 1 - 0 + 1)), r.next) = _
  norm_num

/-- The module-level `default` really is a fixed point of `__init__` at the
arguments it is built from, so passing a placeholder fallback in
`Settings.default` loses nothing. -/
theorem Settings.default_is_fixed_point :
    Settings.init Settings.default (some 5) (some 200) (some 60) =
      Settings.default := rfl

/-- Claim C1: Round-trip law — for every strategy variant (Boolean,
Constant/Just, Enumerated-Choice/SampledFrom, Random-Seed) and every
template that strategy's `produce_template` can return (over all randomness
source states and parameter values), decoding the encoding returns the same
template: `from_basic (to_basic t) = ok t`. -/
theorem strategy_roundtrip (r : PRandom) (p : ℚ) (v : PyVal)
    (elements : List PyVal) (h : elements ≠ []) (pv : List ℕ) :
    (BoolStrategy.to_basic (BoolStrategy.produce_template r p).1 >>=
        BoolStrategy.from_basic) =
      .ok (BoolStrategy.produce_template r p).1 ∧
    (JustStrategy.to_basic v (JustStrategy.produce_template v r ()).1 >>=
        JustStrategy.from_basic v) =
      .ok (JustStrategy.produce_template v r ()).1 ∧
    (SampledFromStrategy.to_basic
          (SampledFromStrategy.produce_template elements r pv).1 >>=
        SampledFromStrategy.from_basic elements) =
      .ok (SampledFromStrategy.produce_template elements r pv).1 ∧
    (RandomStrategy.to_basic (RandomStrategy.produce_template r ()).1 >>=
        RandomStrategy.from_basic) =
      .ok (RandomStrategy.produce_template r ()).1 := by
  refine ⟨?_, rfl, ?_, rfl⟩
  · have hb : (BoolStrategy.produce_template r p).1 =
        .bool (biased_coin r p).1 := rfl
    rw [hb]
    cases (biased_coin r p).1 <;> rfl
  · have hlen : (0 : ℤ) < (elements.length : ℤ) := by
      exact_mod_cast List.length_pos.mpr h
    rw [SampledFromStrategy.produce_template_eq]
    show SampledFromStrategy.from_basic elements
        (.int ((r.stream r.pos : ℤ) % (elements.length : ℤ))) =
      .ok (.int ((r.stream r.pos : ℤ) % (elements.length : ℤ)))
    exact SampledFromStrategy.from_basic_ok elements _
      (Int.emod_nonneg _ (by omega)) (Int.emod_lt_of_pos _ hlen)

/-- Witness for `strategy_roundtrip` at a concrete randomness stream, bias,
fixed value, element list and parameter. -/
theorem strategy_roundtrip_witness :
    ([PyVal.int 10, PyVal.int 20] : List PyVal) ≠ [] ∧
    ((BoolStrategy.to_basic
          (BoolStrategy.produce_template ⟨fun _ => 3, 0⟩ (1 / 2)).1 >>=
        BoolStrategy.from_basic) =
      .ok (BoolStrategy.produce_template ⟨fun _ => 3, 0⟩ (1 / 2)).1 ∧
    (JustStrategy.to_basic (.str "a")
          (JustStrategy.produce_template (.str "a") ⟨fun _ => 3, 0⟩ ()).1 >>=
        JustStrategy.from_basic (.str "a")) =
      .ok (JustStrategy.produce_template (.str "a") ⟨fun _ => 3, 0⟩ ()).1 ∧
    (SampledFromStrategy.to_basic
          (SampledFromStrategy.produce_template [.int 10, .int 20]
            ⟨fun _ => 3, 0⟩ [0]).1 >>=
        SampledFromStrategy.from_basic [.int 10, .int 20]) =
      .ok (SampledFromStrategy.produce_template [.int 10, .int 20]
        ⟨fun _ => 3, 0⟩ [0]).1 ∧
    (RandomStrategy.to_basic
          (RandomStrategy.produce_template ⟨fun _ => 3, 0⟩ ()).1 >>=
        RandomStrategy.from_basic) =
      .ok (RandomStrategy.produce_template ⟨fun _ => 3, 0⟩ ()).1) :=
  ⟨by decide,
    strategy_roundtrip ⟨fun _ => 3, 0⟩ (1 / 2) (.str "a")
      [.int 10, .int 20] (by decide) [0]⟩

/-- Claim C2: `from_basic` raises `BadData` exactly on structurally bad
input — for Just, every non-`None` input fails and `None` succeeds; for
SampledFrom over `n` elements, every non-integer input fails, every integer
index below `0` or at least `n` fails, and every in-range index is returned
unchanged; for Bool, every non-integer input fails. -/
theorem from_basic_error_contract (value w u : PyVal)
    (elements : List PyVal) (i j k : ℤ)
    (hw : w ≠ PyVal.none) (hu : isInstInt u = false)
    (hj : j < 0) (hk : (elements.length : ℤ) ≤ k)
    (hi0 : 0 ≤ i) (hin : i < (elements.length : ℤ)) :
    isBadData (JustStrategy.from_basic value w) = true ∧
    JustStrategy.from_basic value PyVal.none = .ok value ∧
    isBadData (SampledFromStrategy.from_basic elements u) = true ∧
    isBadData (SampledFromStrategy.from_basic elements (.int j)) = true ∧
    isBadData (SampledFromStrategy.from_basic elements (.int k)) = true ∧
    SampledFromStrategy.from_basic elements (.int i) = .ok (.int i) ∧
    isBadData (BoolStrategy.from_basic u) = true := by
  refine ⟨?_, rfl, ?_, ?_, ?_, ?_, ?_⟩
  · cases w <;> first | rfl | exact absurd rfl hw
  · cases u <;> first | rfl | simp [isInstInt] at hu
  · rw [SampledFromStrategy.from_basic_int, if_pos hj]; rfl
  · rw [SampledFromStrategy.from_basic_int, if_neg (by omega),
      if_pos (by omega)]
    rfl
  · exact SampledFromStrategy.from_basic_ok elements i hi0 hin
  · cases u <;> first | rfl | simp [isInstInt] at hu

/-- Witness for `from_basic_error_contract` on a two-element strategy with
a string as the bad-shaped input and indices `-1`, `2`, `1`. -/
theorem from_basic_error_contract_witness :
    (PyVal.str "w" ≠ PyVal.none ∧ isInstInt (PyVal.str "u") = false ∧
      (-1 : ℤ) < 0 ∧ (([PyVal.int 10, PyVal.int 20] : List PyVal).length : ℤ) ≤ 2 ∧
      (0 : ℤ) ≤ 1 ∧ (1 : ℤ) < (([PyVal.int 10, PyVal.int 20] : List PyVal).length : ℤ)) ∧
    (isBadData (JustStrategy.from_basic (.int 0) (.str "w")) = true ∧
    JustStrategy.from_basic (.int 0) PyVal.none = .ok (.int 0) ∧
    isBadData (SampledFromStrategy.from_basic [.int 10, .int 20] (.str "u")) = true ∧
    isBadData (SampledFromStrategy.from_basic [.int 10, .int 20] (.int (-1))) = true ∧
    isBadData (SampledFromStrategy.from_basic [.int 10, .int 20] (.int 2)) = true ∧
    SampledFromStrategy.from_basic [.int 10, .int 20] (.int 1) = .ok (.int 1) ∧
    isBadData (BoolStrategy.from_basic (.str "u")) = true) :=
  ⟨by refine ⟨by decide, rfl, by decide, by decide, by decide, by decide⟩,
    from_basic_error_contract (.int 0) (.str "w") (.str "u")
      [.int 10, .int 20] 1 (-1) 2 (by decide) rfl (by decide) (by decide)
      (by decide) (by decide)⟩

/-- Claim C3: Registry resolution of special descriptors — resolving a
descriptor that is already a `SearchStrategy` returns that same strategy
unchanged (the rule is the identity function, the strongest analogue of
object identity in the embedding), and resolving the `None`-valued (or
`NoneType`) descriptor yields `JustStrategy(None)`, whose sole producible
value is `None`. -/
theorem registry_special_resolution {P : Type} (table : Unit)
    (s : SearchStrategy P) (d : PyVal) (r : PRandom) (pv : Unit) :
    define_strategy_strategy table s = s ∧
    define_none_strategy table d = mkJustStrategy PyVal.none ∧
    ((define_none_strategy table d).produce_template r pv).1 = PyVal.none ∧
    (define_none_strategy table d).reify
        ((define_none_strategy table d).produce_template r pv).1 =
      PyVal.none :=
  ⟨rfl, rfl, rfl, rfl⟩

/-- Claim C4: `SampledFromStrategy.produce_template` over `n` elements
returns an integer index in `[0, n)` (and the advanced randomness state),
and the result does not depend on the supplied parameter: the same
randomness state with different parameters gives the same index. -/
theorem sampled_template_range_param_free (elements : List PyVal)
    (h : elements ≠ []) (r : PRandom) (pv pv2 : List ℕ) :
    (∃ i : ℤ, 0 ≤ i ∧ i < (elements.length : ℤ) ∧
      SampledFromStrategy.produce_template elements r pv =
        (.int i, r.next)) ∧
    SampledFromStrategy.produce_template elements r pv =
      SampledFromStrategy.produce_template elements r pv2 := by
  have hlen : (0 : ℤ) < (elements.length : ℤ) := by
    exact_mod_cast List.length_pos.mpr h
  refine ⟨⟨(r.stream r.pos : ℤ) % (elements.length : ℤ),
    Int.emod_nonneg _ (by omega), Int.emod_lt_of_pos _ hlen,
    SampledFromStrategy.produce_template_eq elements r pv⟩, rfl⟩

/-- Witness for `sampled_template_range_param_free` on a two-element
strategy with two different parameter subsets. -/
theorem sampled_template_range_param_free_witness :
    ([PyVal.str "a", PyVal.str "b"] : List PyVal) ≠ [] ∧
    ((∃ i : ℤ, 0 ≤ i ∧ i < (([PyVal.str "a", PyVal.str "b"] : List PyVal).length : ℤ) ∧
      SampledFromStrategy.produce_template [.str "a", .str "b"]
          ⟨fun _ => 5, 0⟩ [0] =
        (.int i, PRandom.next ⟨fun _ => 5, 0⟩)) ∧
    SampledFromStrategy.produce_template [.str "a", .str "b"]
        ⟨fun _ => 5, 0⟩ [0] =
      SampledFromStrategy.produce_template [.str "a", .str "b"]
        ⟨fun _ => 5, 0⟩ [1]) :=
  ⟨by decide,
    sampled_template_range_param_free [.str "a", .str "b"] (by decide)
      ⟨fun _ => 5, 0⟩ [0] [1]⟩

/-- Claim C5: Constant strategy invariant — for any fixed value `v`,
`JustStrategy(v).produce_template` returns `v` for every randomness source
and parameter, and reifying that template yields `v` again. -/
theorem just_constant_invariant (v : PyVal) (r : PRandom) (pv : Unit) :
    ((mkJustStrategy v).produce_template r pv).1 = v ∧
    (mkJustStrategy v).reify ((mkJustStrategy v).produce_template r pv).1 =
      v :=
  ⟨rfl, rfl⟩

/-- Claim C6: SampledFrom size bounds — when every element is hashable,
`size_lower_bound` and `size_upper_bound` both equal the number of distinct
elements under Python `==` (duplicates collapse; `[1, 2, 2, 3]` gives 3);
when some element is unhashable, both bounds equal the raw element count. -/
theorem sampled_size_bounds_distinct (hashables unhashables : List PyVal)
    (hh : hashables.all pyHashable = true)
    (hu : unhashables.all pyHashable = false) :
    SampledFromStrategy.size_lower_bound hashables =
      (pyDistinct hashables).length ∧
    SampledFromStrategy.size_upper_bound hashables =
      (pyDistinct hashables).length ∧
    SampledFromStrategy.size_lower_bound unhashables =
      unhashables.length ∧
    SampledFromStrategy.size_upper_bound unhashables =
      unhashables.length ∧
    SampledFromStrategy.size_lower_bound
      [.int 1, .int 2, .int 2, .int 3] = 3 ∧
    SampledFromStrategy.size_upper_bound
      [.int 1, .int 2, .int 2, .int 3] = 3 := by
  refine ⟨?_, ?_, ?_, ?_, by decide, by decide⟩ <;>
    simp [SampledFromStrategy.size_lower_bound,
      SampledFromStrategy.size_upper_bound, hh, hu]

/-- Witness for `sampled_size_bounds_distinct`: `[1, True]` is hashable
with one distinct value (Python `1 == True`), `[[]]` contains an unhashable
list. -/
theorem sampled_size_bounds_distinct_witness :
    (([PyVal.int 1, PyVal.bool true] : List PyVal).all pyHashable = true ∧
      ([PyVal.list .nil] : List PyVal).all pyHashable = false) ∧
    (SampledFromStrategy.size_lower_bound [.int 1, .bool true] =
      (pyDistinct [.int 1, .bool true]).length ∧
    SampledFromStrategy.size_upper_bound [.int 1, .bool true] =
      (pyDistinct [.int 1, .bool true]).length ∧
    SampledFromStrategy.size_lower_bound [.list .nil] =
      ([PyVal.list .nil] : List PyVal).length ∧
    SampledFromStrategy.size_upper_bound [.list .nil] =
      ([PyVal.list .nil] : List PyVal).length ∧
    SampledFromStrategy.size_lower_bound
      [.int 1, .int 2, .int 2, .int 3] = 3 ∧
    SampledFromStrategy.size_upper_bound
      [.int 1, .int 2, .int 2, .int 3] = 3) :=
  ⟨⟨by decide, by decide⟩,
    sampled_size_bounds_distinct [.int 1, .bool true] [.list .nil]
      (by decide) (by decide)⟩

/-- Claim C7 counterexample: the claim "for every strategy variant,
`to_basic` fails with a TypeError-class error on a value of the wrong
runtime shape" is false — the SampledFrom, Random and Just strategies
encode wrong-shaped values without any error: `SampledFromStrategy.to_basic`
returns `None` (never an index template) unchanged, `RandomStrategy.to_basic`
returns a string unchanged, and `JustStrategy.to_basic` returns `None`
whatever it is given. -/
theorem to_basic_unchecked_counterexample :
    SampledFromStrategy.to_basic PyVal.none = .ok PyVal.none ∧
    isTypeError (SampledFromStrategy.to_basic PyVal.none) = false ∧
    RandomStrategy.to_basic (.str "wrong") = .ok (.str "wrong") ∧
    isTypeError (RandomStrategy.to_basic (.str "wrong")) = false ∧
    JustStrategy.to_basic (.int 7) (.str "wrong") = .ok PyVal.none ∧
    isTypeError (JustStrategy.to_basic (.int 7) (.str "wrong")) = false :=
  ⟨rfl, rfl, rfl, rfl, rfl, rfl⟩

/-- Claim C7 as amended: only the Boolean strategy's `to_basic` performs the
defensive runtime-shape check (TypeError-class error on any non-boolean
value); the Just, SampledFrom and Random-Seed strategies' `to_basic` never
fail, returning `None` (Just) or the template unchanged without
validation. -/
theorem to_basic_shape_check_only_bool (v u w : PyVal)
    (hv : isInstBool v = false) :
    isTypeError (BoolStrategy.to_basic v) = true ∧
    JustStrategy.to_basic u w = .ok PyVal.none ∧
    SampledFromStrategy.to_basic w = .ok w ∧
    RandomStrategy.to_basic w = .ok w := by
  refine ⟨?_, rfl, rfl, rfl⟩
  cases v <;> first | rfl | simp [isInstBool] at hv

/-- Witness for `to_basic_shape_check_only_bool` with an integer fed to the
Boolean strategy and a string template for the others. -/
theorem to_basic_shape_check_only_bool_witness :
    isInstBool (PyVal.int 0) = false ∧
    (isTypeError (BoolStrategy.to_basic (.int 0)) = true ∧
    JustStrategy.to_basic (.int 7) (.str "t") = .ok PyVal.none ∧
    SampledFromStrategy.to_basic (.str "t") = .ok (.str "t") ∧
    RandomStrategy.to_basic (.str "t") = .ok (.str "t")) :=
  ⟨rfl, to_basic_shape_check_only_bool (.int 0) (.int 7) (.str "t") rfl⟩

/-- Claim C8: Boolean encoding — `to_basic` maps `True` to `1` and `False`
to `0`; `from_basic` on any integer decodes by truthiness: the result is
`True` exactly when the integer is nonzero. -/
theorem bool_encoding_truthiness (n : ℤ) :
    BoolStrategy.to_basic (.bool true) = .ok (.int 1) ∧
    BoolStrategy.to_basic (.bool false) = .ok (.int 0) ∧
    BoolStrategy.from_basic (.int n) = .ok (.bool (n != 0)) ∧
    (BoolStrategy.from_basic (.int n) = .ok (.bool true) ↔ n ≠ 0) := by
  refine ⟨rfl, rfl, rfl, ?_⟩
  rw [show BoolStrategy.from_basic (.int n) = .ok (.bool (n != 0)) from rfl]
  simp

/-- Claim C9: the default configuration object has
`min_satisfying_examples = 5`, `max_examples = 200` and `timeout = 60`, and
a `Settings` built with every argument omitted takes exactly those three
values. -/
theorem default_settings_values :
    Settings.default.min_satisfying_examples = 5 ∧
    Settings.default.max_examples = 200 ∧
    Settings.default.timeout = 60 ∧
    Settings.init Settings.default Option.none Option.none Option.none =
      Settings.default :=
  ⟨rfl, rfl, rfl, rfl⟩

/-- Claim C10: because `Settings.__init__` falls back by a truthiness test
rather than an `is None` test, a falsy argument (`0`) is silently replaced
by the corresponding default (5, 200 or 60), while any truthy (nonzero)
argument is stored as given. -/
theorem settings_falsy_fallback (v : ℤ) (hv : v ≠ 0) :
    (Settings.init Settings.default (some 0) Option.none
      Option.none).min_satisfying_examples = 5 ∧
    (Settings.init Settings.default Option.none (some 0)
      Option.none).max_examples = 200 ∧
    (Settings.init Settings.default Option.none Option.none
      (some 0)).timeout = 60 ∧
    Settings.init Settings.default (some v) (some v) (some v) =
      ⟨v, v, v⟩ := by
  refine ⟨rfl, rfl, rfl, ?_⟩
  simp [Settings.init, orDefault, hv]

/-- Witness for `settings_falsy_fallback` at the truthy value 7. -/
theorem settings_falsy_fallback_witness :
    (7 : ℤ) ≠ 0 ∧
    ((Settings.init Settings.default (some 0) Option.none
      Option.none).min_satisfying_examples = 5 ∧
    (Settings.init Settings.default Option.none (some 0)
      Option.none).max_examples = 200 ∧
    (Settings.init Settings.default Option.none Option.none
      (some 0)).timeout = 60 ∧
    Settings.init Settings.default (some 7) (some 7) (some 7) =
      ⟨7, 7, 7⟩) :=
  ⟨by decide, settings_falsy_fallback 7 (by decide)⟩
